import Mathlib

/-!
Shallow embedding of the todolist storage core: the item model
(`todolist/app/backends/base.py`), the SQLite backend
(`todolist/app/backends/sqlite.py`), the Azure Table backend
(`todolist/app/backends/azure_table.py`) and the service orchestrator
(`todolist/app/todo_service.py`), together with theorems settling the
frozen specification claims.

Modelling conventions:
* A naive Python `datetime` is represented by its timestamp in microseconds
  (a `Nat`); `datetime.now()` is a read of an external clock, modelled as a
  stream of instants indexed by a call counter that every operation threads.
* `datetime.isoformat()` is modelled as a fixed-width decimal rendering of
  the instant.  The model keeps the three properties of the real ISO-8601
  rendering that the code relies on: it is injective, `fromisoformat` parses
  it back exactly, and its bytewise lexicographic order agrees with the
  chronological order of the instants (Python datetimes are bounded by year
  9999, hence the 20-digit width suffices).
* `str(uuid.uuid4())` is an externally supplied fresh token, passed as an
  explicit argument.
* The SQLite database is the list of rows of the `todos` table in insertion
  order; SQL statements are modelled row by row, and `ORDER BY ... DESC`
  sorts by the TEXT column under the BINARY collation (bytewise compare).
* The service orchestrator is instantiated with the SQLite backend, the
  backend its repository tests exercise.
-/

namespace Todolist

/-- Model of a Python `datetime` instant: microseconds since `datetime.min`. -/
abbrev DateTime := Nat

/-- Python datetimes are bounded (year at most 9999), so every representable
instant fits in 20 decimal digits of microseconds. -/
abbrev DateTime.WF (t : DateTime) : Prop := t < 10 ^ 20

/-- Decimal digit characters used by the timestamp rendering. -/
def digitChar (d : Nat) : Char :=
  match d with
  | 0 => '0' | 1 => '1' | 2 => '2' | 3 => '3' | 4 => '4'
  | 5 => '5' | 6 => '6' | 7 => '7' | 8 => '8' | _ => '9'

/-- Big-endian list of the `w` low decimal digits of `n` (all the digits of
`n` when `n < 10 ^ w`, left-padded with zeros). -/
def padDigits : Nat → Nat → List Nat
  | 0, _ => []
  | w + 1, n => n / 10 ^ w :: padDigits w (n % 10 ^ w)

/-- Model of `datetime.isoformat()`: a fixed-width decimal rendering of the
instant (see the file header for the abstraction). -/
def DateTime.isoformat (t : DateTime) : String :=
  String.mk ((padDigits 20 t).map digitChar)

/-- Model of `datetime.fromisoformat`: exact parse of the rendering. -/
def fromisoformat (s : String) : DateTime :=
  s.data.foldl (fun a c => a * 10 + (c.toNat - 48)) 0

/-- Process clock: `read k` is the instant returned by the `k`-th call to
`datetime.now()`. -/
structure Clock where
  read : Nat → DateTime

/-- A clock whose successive readings never decrease. -/
def Clock.Monotone (c : Clock) : Prop := ∀ i j, i ≤ j → c.read i ≤ c.read j

/-- Primitive value in a serialized mapping (`Dict[str, Any]`): Python
strings, booleans and `datetime` objects. -/
inductive Value where
  | vStr (s : String)
  | vBool (b : Bool)
  | vDT (t : DateTime)
deriving DecidableEq

/-- Five-field mapping produced by `TodoItem.to_dict` and consumed by
`TodoItem.from_dict`. -/
structure ItemDict where
  id : Value
  title : Value
  completed : Value
  created_at : Value
  updated_at : Value
deriving DecidableEq

/-- The todo item entity (`base.py`). -/
structure TodoItem where
  id : String
  title : String
  completed : Bool
  created_at : DateTime
  updated_at : DateTime
deriving DecidableEq

/-- Model of `TodoItem.__init__`: each defaulted timestamp comes from a
separate `datetime.now()` call (`created_at or datetime.now()` evaluates the
clock only when the argument is absent; datetime objects are always truthy).
Returns the item together with the advanced clock counter. -/
def TodoItem.init (id title : String) (completed : Bool)
    (created_at updated_at : Option DateTime) (c : Clock) (k : Nat) :
    TodoItem × Nat :=
  let ca : DateTime × Nat :=
    match created_at with
    | some t => (t, k)
    | none => (c.read k, k + 1)
  let ua : DateTime × Nat :=
    match updated_at with
    | some t => (t, ca.2)
    | none => (c.read ca.2, ca.2 + 1)
  (⟨id, title, completed, ca.1, ua.1⟩, ua.2)

/-- Model of `TodoItem.to_dict`. -/
def TodoItem.to_dict (it : TodoItem) : ItemDict :=
  ⟨.vStr it.id, .vStr it.title, .vBool it.completed,
   .vStr it.created_at.isoformat, .vStr it.updated_at.isoformat⟩

/-- Model of `TodoItem.from_dict`: timestamps arriving as strings are parsed
with `datetime.fromisoformat`, already-parsed values pass through; the result
is `none` when the runtime types of the fields cannot construct a well-typed
item. -/
def TodoItem.from_dict (d : ItemDict) : Option TodoItem :=
  let ca := match d.created_at with | .vStr s => Value.vDT (fromisoformat s) | v => v
  let ua := match d.updated_at with | .vStr s => Value.vDT (fromisoformat s) | v => v
  match d.id, d.title, d.completed, ca, ua with
  | .vStr i, .vStr t, .vBool b, .vDT cat, .vDT uat => some ⟨i, t, b, cat, uat⟩
  | _, _, _, _, _ => none

/-- One row of the `todos` table (`id TEXT PRIMARY KEY, title TEXT NOT NULL,
completed INTEGER NOT NULL, created_at TEXT NOT NULL, updated_at TEXT NOT
NULL`). -/
structure Row where
  id : String
  title : String
  completed : Nat
  created_at : String
  updated_at : String
deriving DecidableEq

/-- SQLite BINARY collation on TEXT values (bytewise compare): `strLtB a b`
holds when `a` sorts strictly before `b`. -/
def strLtB : List Char → List Char → Bool
  | [], [] => false
  | [], _ :: _ => true
  | _ :: _, [] => false
  | a :: as, b :: bs =>
    if a.toNat < b.toNat then true
    else if b.toNat < a.toNat then false
    else strLtB as bs

/-- Comparator `s ≤ t` in SQLite TEXT ordering. -/
def textLe (s t : String) : Bool := ! strLtB t.data s.data

/-- State of the SQLite backend: the rows of the `todos` table, in insertion
order. -/
structure SQLiteTodoBackend where
  rows : List Row
deriving DecidableEq

namespace SQLiteTodoBackend

/-- Errors raised by the embedded SQL engine. -/
inductive SqlError where
  | integrityError
deriving DecidableEq

/-- Mapping built by `get_item` and `get_all_items` from a fetched row;
`bool(row["completed"])` is integer truthiness. -/
def rowDict (r : Row) : ItemDict :=
  ⟨.vStr r.id, .vStr r.title, .vBool (r.completed != 0),
   .vStr r.created_at, .vStr r.updated_at⟩

/-- Row written for an item: `completed` as `1 if item.completed else 0`,
timestamps via `isoformat`. -/
def itemRow (it : TodoItem) : Row :=
  ⟨it.id, it.title, if it.completed then 1 else 0,
   it.created_at.isoformat, it.updated_at.isoformat⟩

/-- Model of `SQLiteTodoBackend.add_item`: a falsy id is defensively replaced
by a fresh token; the INSERT raises an IntegrityError on a primary-key
collision, leaving the table unchanged. -/
def add_item (uuid : String) (st : SQLiteTodoBackend) (item : TodoItem) :
    Except SqlError TodoItem × SQLiteTodoBackend :=
  let item := if item.id = "" then { item with id := uuid } else item
  if st.rows.any (fun r => r.id == item.id) then
    (.error .integrityError, st)
  else
    (.ok item, ⟨st.rows ++ [itemRow item]⟩)

/-- Model of `SQLiteTodoBackend.get_item`: `SELECT * FROM todos WHERE id = ?`
followed by `fetchone`, reconstructing the item with `TodoItem.from_dict`. -/
def get_item (st : SQLiteTodoBackend) (item_id : String) : Option TodoItem :=
  (st.rows.find? (fun r => r.id == item_id)).bind
    (fun r => TodoItem.from_dict (rowDict r))

/-- Model of `SQLiteTodoBackend.get_all_items`: `SELECT * FROM todos ORDER BY
created_at DESC` — the rows sorted by the `created_at` TEXT column in
descending binary order — each reconstructed with `TodoItem.from_dict`. -/
def get_all_items (st : SQLiteTodoBackend) : List TodoItem :=
  (st.rows.mergeSort (fun r1 r2 => textLe r2.created_at r1.created_at)).filterMap
    (fun r => TodoItem.from_dict (rowDict r))

/-- Model of `SQLiteTodoBackend.update_item`: refreshes `item.updated_at` to
`datetime.now()` and issues `UPDATE todos SET title = ?, completed = ?,
updated_at = ? WHERE id = ?`. -/
def update_item (c : Clock) (k : Nat) (st : SQLiteTodoBackend) (item : TodoItem) :
    TodoItem × SQLiteTodoBackend × Nat :=
  let item := { item with updated_at := c.read k }
  let rows := st.rows.map (fun r =>
    if r.id == item.id then
      { r with title := item.title,
               completed := if item.completed then 1 else 0,
               updated_at := item.updated_at.isoformat }
    else r)
  (item, ⟨rows⟩, k + 1)

/-- Model of `SQLiteTodoBackend.delete_item`: `DELETE FROM todos WHERE
id = ?`, returning `cursor.rowcount > 0`. -/
def delete_item (st : SQLiteTodoBackend) (item_id : String) :
    Bool × SQLiteTodoBackend :=
  (decide (0 < st.rows.countP (fun r => r.id == item_id)),
   ⟨st.rows.filter (fun r => !(r.id == item_id))⟩)

end SQLiteTodoBackend

namespace TodoService

/-- Model of `TodoService.add_task`: builds a `TodoItem` with a freshly
generated id (`uuid` stands for `str(uuid.uuid4())`) and no caller-supplied
timestamps, then delegates to the backend `add_item`. -/
def add_task (c : Clock) (k : Nat) (uuid : String) (st : SQLiteTodoBackend)
    (title : String) (completed : Bool) :
    Except SQLiteTodoBackend.SqlError TodoItem × SQLiteTodoBackend × Nat :=
  let r := TodoItem.init uuid title completed none none c k
  let a := SQLiteTodoBackend.add_item uuid st r.1
  (a.1, a.2, r.2)

/-- Model of `TodoService.get_task`: pure delegation to the backend. -/
def get_task (st : SQLiteTodoBackend) (task_id : String) : Option TodoItem :=
  st.get_item task_id

/-- Model of `TodoService.get_all_tasks`: pure delegation to the backend. -/
def get_all_tasks (st : SQLiteTodoBackend) : List TodoItem :=
  st.get_all_items

/-- Model of `TodoService.update_task`: read-modify-write; absent fields
(`is not None` checks) leave the fetched value untouched. -/
def update_task (c : Clock) (k : Nat) (st : SQLiteTodoBackend) (task_id : String)
    (title : Option String) (completed : Option Bool) :
    Option TodoItem × SQLiteTodoBackend × Nat :=
  match st.get_item task_id with
  | none => (none, st, k)
  | some item =>
    let item := match title with | some t => { item with title := t } | none => item
    let item := match completed with | some b => { item with completed := b } | none => item
    let u := SQLiteTodoBackend.update_item c k st item
    (some u.1, u.2.1, u.2.2)

/-- Model of `TodoService.toggle_task`: read, flip `completed`, write. -/
def toggle_task (c : Clock) (k : Nat) (st : SQLiteTodoBackend) (task_id : String) :
    Option TodoItem × SQLiteTodoBackend × Nat :=
  match st.get_item task_id with
  | none => (none, st, k)
  | some item =>
    let item := { item with completed := !item.completed }
    let u := SQLiteTodoBackend.update_item c k st item
    (some u.1, u.2.1, u.2.2)

/-- Model of `TodoService.delete_task`: pure delegation to the backend. -/
def delete_task (st : SQLiteTodoBackend) (task_id : String) :
    Bool × SQLiteTodoBackend :=
  st.delete_item task_id

end TodoService

/-- Entity stored in the Azure table: PartitionKey, RowKey and the item
fields (timestamps as ISO strings, completed as a boolean). -/
structure AzEntity where
  partitionKey : String
  rowKey : String
  title : String
  completed : Bool
  created_at : String
  updated_at : String
deriving DecidableEq

/-- State of the remote Azure table. -/
structure AzureTable where
  entities : List AzEntity
deriving DecidableEq

namespace AzureTableTodoBackend

/-- Faults surfaced by the Azure Tables SDK that this embedding
distinguishes. -/
inductive AzError where
  | resourceExists
deriving DecidableEq

/-- Model of `AzureTableTodoBackend.add_item`: `create_entity` is insert-only
— the SDK raises a ResourceExistsError when an entity with the same
PartitionKey and RowKey is already stored, leaving the table unchanged; the
method installs no exception handler, so the fault propagates. -/
def add_item (uuid : String) (tbl : AzureTable) (item : TodoItem) :
    Except AzError TodoItem × AzureTable :=
  let item := if item.id = "" then { item with id := uuid } else item
  let entity : AzEntity :=
    ⟨"todos", item.id, item.title, item.completed,
     item.created_at.isoformat, item.updated_at.isoformat⟩
  if tbl.entities.any (fun e => e.partitionKey == "todos" && e.rowKey == item.id) then
    (.error .resourceExists, tbl)
  else
    (.ok item, ⟨tbl.entities ++ [entity]⟩)

/-- Outcome of the remote `delete_entity` call: success, or a raised service
error whose `notFound` flag records whether the root cause was an absent
entity. -/
inductive DeleteResp where
  | ok
  | err (notFound : Bool)
deriving DecidableEq

/-- Model of `AzureTableTodoBackend.delete_item`: the call to `delete_entity`
is wrapped in `try/except Exception`, returning `True` on success and `False`
on any raised error.  The result type allows a surfaced fault
(`Except.error`), which this implementation never produces. -/
def delete_item (resp : DeleteResp) : Except String Bool :=
  match resp with
  | .ok => .ok true
  | .err _ => .ok false

/-- Environment variables read by the constructor. -/
structure AzureEnv where
  table_name : Option String
  account_name : Option String
  account_url : Option String
  connection_string : Option String
  use_workload_identity : Option String
deriving DecidableEq

/-- Python string truthiness of an optional string: present and non-empty. -/
def truthy (o : Option String) : Bool := o.getD "" != ""

/-- Python `a or b` over optional strings: keeps `a` when truthy. -/
def pyOr (a b : Option String) : Option String := if truthy a then a else b

/-- ASCII lowering of one character (the fragment of `str.lower` relevant
to comparing an environment value with "true"). -/
def lowerChar (c : Char) : Char :=
  match c with
  | 'A' => 'a' | 'B' => 'b' | 'C' => 'c' | 'D' => 'd' | 'E' => 'e'
  | 'F' => 'f' | 'G' => 'g' | 'H' => 'h' | 'I' => 'i' | 'J' => 'j'
  | 'K' => 'k' | 'L' => 'l' | 'M' => 'm' | 'N' => 'n' | 'O' => 'o'
  | 'P' => 'p' | 'Q' => 'q' | 'R' => 'r' | 'S' => 's' | 'T' => 't'
  | 'U' => 'u' | 'V' => 'v' | 'W' => 'w' | 'X' => 'x' | 'Y' => 'y'
  | 'Z' => 'z' | other => other

/-- Model of Python `str.lower`. -/
def pyLower (s : String) : String := String.mk (s.data.map lowerChar)

/-- Errors raised by the constructor. -/
inductive InitError where
  | importError
  | valueError
deriving DecidableEq

/-- Configuration held by a successfully constructed backend. -/
structure AzureConfig where
  table_name : String
  account_name : Option String
  account_url : Option String
  connection_string : Option String
  use_workload_identity : Bool
deriving DecidableEq

/-- Model of `AzureTableTodoBackend.__init__`: resolves each setting from the
argument or the environment (Python `or`, hence string truthiness), computes
the effective workload-identity flag, and validates: no workload identity and
no connection string, or workload identity and neither account URL nor
account name, raise a ValueError; a missing Azure SDK raises an ImportError
first. -/
def init (azure_available : Bool) (connection_string : Option String)
    (table_name : String) (account_name account_url : Option String)
    (use_workload_identity : Bool) (env : AzureEnv) :
    Except InitError AzureConfig :=
  if !azure_available then .error .importError else
  let tn := if table_name != "" then table_name else env.table_name.getD "todos"
  let name := pyOr account_name env.account_name
  let url := pyOr account_url env.account_url
  let cs := pyOr connection_string env.connection_string
  let wi := use_workload_identity ||
    (pyLower (env.use_workload_identity.getD "false") == "true")
  if !wi && !truthy cs then .error .valueError
  else if wi && !truthy url && !truthy name then .error .valueError
  else .ok ⟨tn, name, url, cs, wi⟩

end AzureTableTodoBackend

/-!  Helper lemmas about the timestamp rendering and the TEXT collation. -/

/-- Character codes of the decimal digits. -/
theorem digitChar_toNat {d : Nat} (h : d < 10) : (digitChar d).toNat = 48 + d := by
  interval_cases d <;> rfl

/-- Folding the parser over the rendering of `n < 10 ^ w` recovers `n`. -/
theorem foldl_map_digitChar (w : Nat) : ∀ n a, n < 10 ^ w →
    ((padDigits w n).map digitChar).foldl (fun acc c => acc * 10 + (c.toNat - 48)) a
      = a * 10 ^ w + n := by
  induction w with
  | zero =>
    intro n a h
    interval_cases n
    simp [padDigits]
  | succ w ih =>
    intro n a h
    have hP : 0 < 10 ^ w := Nat.pos_pow_of_pos w (by omega)
    have hdiv : n / 10 ^ w < 10 := by
      apply Nat.div_lt_of_lt_mul
      calc n < 10 ^ (w + 1) := h
        _ = 10 ^ w * 10 := pow_succ 10 w
    have hmod : n % 10 ^ w < 10 ^ w := Nat.mod_lt _ hP
    simp only [padDigits, List.map_cons, List.foldl_cons]
    rw [digitChar_toNat hdiv, Nat.add_sub_cancel_left, ih _ _ hmod]
    have hsplit : 10 ^ w * (n / 10 ^ w) + n % 10 ^ w = n := Nat.div_add_mod n (10 ^ w)
    calc (a * 10 + n / 10 ^ w) * 10 ^ w + n % 10 ^ w
        = a * (10 ^ w * 10) + (10 ^ w * (n / 10 ^ w) + n % 10 ^ w) := by ring
      _ = a * 10 ^ (w + 1) + n := by rw [hsplit, ← pow_succ 10 w]

/-- Parsing inverts the rendering on representable instants. -/
theorem fromisoformat_isoformat {t : DateTime} (h : t.WF) :
    fromisoformat t.isoformat = t := by
  have := foldl_map_digitChar 20 t 0 h
  simpa [fromisoformat, DateTime.isoformat] using this

/-- Asymmetry of the strict TEXT order. -/
theorem strLtB_asymm : ∀ as bs, strLtB as bs = true → strLtB bs as = false := by
  intro as
  induction as with
  | nil =>
    intro bs h
    cases bs with
    | nil => simp [strLtB] at h
    | cons b bs => simp [strLtB]
  | cons a as ih =>
    intro bs h
    cases bs with
    | nil => simp [strLtB] at h
    | cons b bs =>
      by_cases h1 : a.toNat < b.toNat
      · have h2 : ¬ b.toNat < a.toNat := by omega
        simp [strLtB, h1, h2]
      · by_cases h2 : b.toNat < a.toNat
        · simp [strLtB, h1, h2] at h
        · have h3 : strLtB as bs = true := by simpa [strLtB, h1, h2] using h
          simp [strLtB, h1, h2, ih bs h3]

/-- Cotransitivity of the strict TEXT order. -/
theorem strLtB_cotrans : ∀ cs as bs, strLtB cs as = true →
    strLtB cs bs = true ∨ strLtB bs as = true := by
  intro cs
  induction cs with
  | nil =>
    intro as bs h
    cases as with
    | nil => simp [strLtB] at h
    | cons a as =>
      cases bs with
      | nil => right; simp [strLtB]
      | cons b bs => left; simp [strLtB]
  | cons c cs ih =>
    intro as bs h
    cases as with
    | nil => simp [strLtB] at h
    | cons a as =>
      cases bs with
      | nil => right; simp [strLtB]
      | cons b bs =>
        by_cases h1 : c.toNat < a.toNat
        · by_cases h2 : c.toNat < b.toNat
          · left; simp [strLtB, h2]
          · right
            have h3 : b.toNat < a.toNat := by omega
            simp [strLtB, h3]
        · by_cases h2 : a.toNat < c.toNat
          · simp [strLtB, h1, h2] at h
          · have hrec : strLtB cs as = true := by simpa [strLtB, h1, h2] using h
            by_cases h3 : c.toNat < b.toNat
            · left; simp [strLtB, h3]
            · by_cases h4 : b.toNat < c.toNat
              · right
                have h5 : b.toNat < a.toNat := by omega
                simp [strLtB, h5]
              · rcases ih as bs hrec with hl | hr
                · left; simp [strLtB, h3, h4, hl]
                · right
                  have h5 : ¬ b.toNat < a.toNat := by omega
                  have h6 : ¬ a.toNat < b.toNat := by omega
                  simp [strLtB, h5, h6, hr]

/-- Quotient comparison forces value comparison. -/
theorem lt_of_div_lt_div {m n P : Nat} (h : m / P < n / P) : m < n := by
  by_contra hc
  push_neg at hc
  have h2 : n / P ≤ m / P := Nat.div_le_div_right hc
  omega

/-- On equal-width renderings, the TEXT order agrees with the numeric order. -/
theorem strLtB_pad : ∀ w m n, m < 10 ^ w → n < 10 ^ w →
    (strLtB ((padDigits w m).map digitChar) ((padDigits w n).map digitChar) = true
      ↔ m < n) := by
  intro w
  induction w with
  | zero =>
    intro m n hm hn
    interval_cases m
    interval_cases n
    simp [padDigits, strLtB]
  | succ w ih =>
    intro m n hm hn
    have hP : 0 < 10 ^ w := Nat.pos_pow_of_pos w (by omega)
    have hmd : m / 10 ^ w < 10 := by
      apply Nat.div_lt_of_lt_mul
      calc m < 10 ^ (w + 1) := hm
        _ = 10 ^ w * 10 := pow_succ 10 w
    have hnd : n / 10 ^ w < 10 := by
      apply Nat.div_lt_of_lt_mul
      calc n < 10 ^ (w + 1) := hn
        _ = 10 ^ w * 10 := pow_succ 10 w
    have hmm : m % 10 ^ w < 10 ^ w := Nat.mod_lt _ hP
    have hnm : n % 10 ^ w < 10 ^ w := Nat.mod_lt _ hP
    have hem := Nat.div_add_mod m (10 ^ w)
    have hen := Nat.div_add_mod n (10 ^ w)
    simp only [padDigits, List.map_cons]
    by_cases h1 : m / 10 ^ w < n / 10 ^ w
    · have hc : (digitChar (m / 10 ^ w)).toNat < (digitChar (n / 10 ^ w)).toNat := by
        rw [digitChar_toNat hmd, digitChar_toNat hnd]; omega
      simp only [strLtB, hc, if_pos]
      simp only [true_iff]
      calc m < 10 ^ w * (m / 10 ^ w) + 10 ^ w := by omega
        _ = 10 ^ w * (m / 10 ^ w + 1) := by ring
        _ ≤ 10 ^ w * (n / 10 ^ w) := Nat.mul_le_mul_left _ (by omega)
        _ ≤ n := by omega
    · by_cases h2 : n / 10 ^ w < m / 10 ^ w
      · have hc1 : ¬ (digitChar (m / 10 ^ w)).toNat < (digitChar (n / 10 ^ w)).toNat := by
          rw [digitChar_toNat hmd, digitChar_toNat hnd]; omega
        have hc2 : (digitChar (n / 10 ^ w)).toNat < (digitChar (m / 10 ^ w)).toNat := by
          rw [digitChar_toNat hmd, digitChar_toNat hnd]; omega
        have hnm2 : n < m := by
          calc n < 10 ^ w * (n / 10 ^ w) + 10 ^ w := by omega
            _ = 10 ^ w * (n / 10 ^ w + 1) := by ring
            _ ≤ 10 ^ w * (m / 10 ^ w) := Nat.mul_le_mul_left _ (by omega)
            _ ≤ m := by omega
        rw [strLtB, if_neg hc1, if_pos hc2]
        exact ⟨fun hx => by simp at hx, fun hx => absurd hx (Nat.lt_asymm hnm2)⟩
      · have heq : m / 10 ^ w = n / 10 ^ w := by omega
        have hc1 : ¬ (digitChar (m / 10 ^ w)).toNat < (digitChar (n / 10 ^ w)).toNat := by
          rw [digitChar_toNat hmd, digitChar_toNat hnd]; omega
        have hc2 : ¬ (digitChar (n / 10 ^ w)).toNat < (digitChar (m / 10 ^ w)).toNat := by
          rw [digitChar_toNat hmd, digitChar_toNat hnd]; omega
        simp only [strLtB, hc1, hc2, if_neg, if_false]
        rw [ih _ _ hmm hnm]
        constructor
        · intro hlt
          calc m = 10 ^ w * (m / 10 ^ w) + m % 10 ^ w := hem.symm
            _ < 10 ^ w * (m / 10 ^ w) + n % 10 ^ w := by omega
            _ = 10 ^ w * (n / 10 ^ w) + n % 10 ^ w := by rw [heq]
            _ = n := hen
        · intro hlt
          by_contra hc
          push_neg at hc
          have : n ≤ m := by
            calc n = 10 ^ w * (n / 10 ^ w) + n % 10 ^ w := hen.symm
              _ ≤ 10 ^ w * (m / 10 ^ w) + m % 10 ^ w := by rw [heq]; omega
              _ = m := hem
          omega

/-- TEXT comparison of rendered instants is the numeric comparison. -/
theorem textLe_isoformat {m n : Nat} (hm : DateTime.WF m) (hn : DateTime.WF n) :
    textLe (DateTime.isoformat m) (DateTime.isoformat n) = true ↔ m ≤ n := by
  have hiff := strLtB_pad 20 n m hn hm
  unfold textLe DateTime.isoformat at *
  rw [Bool.not_eq_true']
  constructor
  · intro h
    by_contra hc
    push_neg at hc
    have : strLtB ((padDigits 20 n).map digitChar) ((padDigits 20 m).map digitChar)
        = true := hiff.mpr hc
    simp only [String.data] at h
    rw [h] at this
    exact Bool.false_ne_true this
  · intro h
    simp only [String.data]
    rw [Bool.eq_false_iff]
    intro hc
    exact absurd (hiff.mp hc) (Nat.not_lt.mpr h)

/-!  Helper lemmas about the SQLite backend operations. -/

/-- Reconstructing an item from a fetched row always succeeds, with the
fields parsed as shown. -/
theorem from_dict_rowDict (r : Row) :
    TodoItem.from_dict (SQLiteTodoBackend.rowDict r) =
      some ⟨r.id, r.title, r.completed != 0,
        fromisoformat r.created_at, fromisoformat r.updated_at⟩ := rfl

/-- Closed form of `get_item`. -/
theorem get_item_eq (st : SQLiteTodoBackend) (idv : String) :
    st.get_item idv = (st.rows.find? (fun r => r.id == idv)).map
      (fun r => ⟨r.id, r.title, r.completed != 0,
        fromisoformat r.created_at, fromisoformat r.updated_at⟩) := by
  unfold SQLiteTodoBackend.get_item
  cases h : st.rows.find? (fun r => r.id == idv) <;> simp [from_dict_rowDict]

/-- An item fetched under an id carries that id. -/
theorem get_item_id {st : SQLiteTodoBackend} {idv : String} {it : TodoItem}
    (h : st.get_item idv = some it) : it.id = idv := by
  rw [get_item_eq] at h
  cases hf : st.rows.find? (fun r => r.id == idv) with
  | none => rw [hf] at h; simp at h
  | some r =>
    rw [hf] at h
    simp only [Option.map_some', Option.some.injEq] at h
    have hr := List.find?_some hf
    simp only [beq_iff_eq] at hr
    rw [← h]
    exact hr

/-- Mapping an id-preserving function over the rows commutes with looking an
id up. -/
theorem find?_map_of_id (l : List Row) (idv : String) (g : Row → Row)
    (hg : ∀ r, (g r).id = r.id) :
    (l.map g).find? (fun r => r.id == idv) =
      (l.find? (fun r => r.id == idv)).map g := by
  rw [List.find?_map]
  have hp : ((fun r => r.id == idv) ∘ g) = (fun r => r.id == idv) := by
    funext r
    simp [Function.comp, hg]
  rw [hp]

/-- Fetching the updated id after `update_item` returns the stored item with
the title, completed flag and refreshed timestamp written by the UPDATE. -/
theorem get_item_update_item (c : Clock) (k : Nat) (st : SQLiteTodoBackend)
    (item : TodoItem) :
    ((SQLiteTodoBackend.update_item c k st item).2.1).get_item item.id =
      (st.get_item item.id).map (fun old =>
        ⟨old.id, item.title, item.completed, old.created_at,
         fromisoformat (DateTime.isoformat (c.read k))⟩) := by
  rw [get_item_eq, get_item_eq]
  simp only [SQLiteTodoBackend.update_item]
  rw [find?_map_of_id _ _ _ (fun r => by by_cases hr : r.id == item.id <;> simp [hr])]
  cases hf : st.rows.find? (fun r => r.id == item.id) with
  | none => simp
  | some r =>
    have hr := List.find?_some hf
    simp only [Option.map_some']
    rw [if_pos hr]
    cases hcb : item.completed <;> simp [hcb]

/-- The UPDATE statement never touches the id column. -/
theorem update_item_rows_id (c : Clock) (k : Nat) (st : SQLiteTodoBackend)
    (item : TodoItem) :
    ((SQLiteTodoBackend.update_item c k st item).2.1).rows.map Row.id =
      st.rows.map Row.id := by
  simp only [SQLiteTodoBackend.update_item, List.map_map]
  apply List.map_congr_left
  intro r _
  by_cases hr : r.id == item.id <;> simp [Function.comp, hr]

/-!  Claim theorems. -/

/-- C1 counterexample: with a clock whose successive readings differ, the
item constructed by `add_task` (no caller-supplied timestamps) has
`created_at` different from `updated_at`: `TodoItem.__init__` obtains the two
defaults from two separate `datetime.now()` calls. -/
theorem C1_counterexample :
    ((TodoService.add_task ⟨fun k => k⟩ 0 "u1" ⟨[]⟩ "Buy milk" false).1.toOption.map
      (fun it => decide (it.created_at = it.updated_at))) = some false := by rfl

/-- C1 (amended): the item constructed by `add_task` without caller-supplied
timestamps draws `created_at` and `updated_at` from two successive clock
readings, so for a monotone clock the returned item satisfies
`created_at ≤ updated_at` (equality exactly when the two readings coincide),
and carries the requested completed flag. -/
theorem C1_add_task_timestamps (c : Clock) (hc : c.Monotone) (k : Nat)
    (uuid : String) (st : SQLiteTodoBackend) (title : String) (completed : Bool)
    (it : TodoItem)
    (h : (TodoService.add_task c k uuid st title completed).1 = .ok it) :
    it.created_at = c.read k ∧ it.updated_at = c.read (k + 1) ∧
      it.created_at ≤ it.updated_at ∧ it.completed = completed := by
  unfold TodoService.add_task TodoItem.init SQLiteTodoBackend.add_item at h
  simp only at h
  have hmono := hc k (k + 1) (Nat.le_succ k)
  split at h <;> split at h <;> simp at h <;>
    (rw [← h]; exact ⟨rfl, rfl, hmono, rfl⟩)

/-- C1 witness: the amended theorem applied at a concrete clock and state. -/
theorem C1_add_task_timestamps_witness :
    (Clock.Monotone ⟨fun k => k⟩ ∧
      (TodoService.add_task ⟨fun k => k⟩ 0 "u1" ⟨[]⟩ "Buy milk" false).1 =
        .ok (⟨"u1", "Buy milk", false, 0, 1⟩ : TodoItem)) ∧
    ((⟨"u1", "Buy milk", false, 0, 1⟩ : TodoItem).created_at =
        Clock.read ⟨fun k => k⟩ 0 ∧
      (⟨"u1", "Buy milk", false, 0, 1⟩ : TodoItem).updated_at =
        Clock.read ⟨fun k => k⟩ (0 + 1) ∧
      (⟨"u1", "Buy milk", false, 0, 1⟩ : TodoItem).created_at ≤
        (⟨"u1", "Buy milk", false, 0, 1⟩ : TodoItem).updated_at ∧
      (⟨"u1", "Buy milk", false, 0, 1⟩ : TodoItem).completed = false) :=
  ⟨⟨fun _ _ h => h, by rfl⟩,
    C1_add_task_timestamps ⟨fun k => k⟩ (fun _ _ h => h) 0 "u1" ⟨[]⟩ "Buy milk"
      false ⟨"u1", "Buy milk", false, 0, 1⟩ (by rfl)⟩

/-- Closed form of the first component of `toggle_task` on a present id. -/
theorem toggle_task_fst (c : Clock) (k : Nat) (st : SQLiteTodoBackend)
    (idv : String) (it : TodoItem) (hget : st.get_item idv = some it) :
    (TodoService.toggle_task c k st idv).1 =
      some ⟨it.id, it.title, !it.completed, it.created_at, c.read k⟩ := by
  unfold TodoService.toggle_task
  rw [hget]
  rfl

/-- Closed form of the state after `toggle_task` on a present id. -/
theorem toggle_task_state (c : Clock) (k : Nat) (st : SQLiteTodoBackend)
    (idv : String) (it : TodoItem) (hget : st.get_item idv = some it) :
    (TodoService.toggle_task c k st idv).2.1 =
      (SQLiteTodoBackend.update_item c k st
        ⟨it.id, it.title, !it.completed, it.created_at, it.updated_at⟩).2.1 := by
  unfold TodoService.toggle_task
  rw [hget]

/-- Closed form of the clock counter after `toggle_task` on a present id. -/
theorem toggle_task_counter (c : Clock) (k : Nat) (st : SQLiteTodoBackend)
    (idv : String) (it : TodoItem) (hget : st.get_item idv = some it) :
    (TodoService.toggle_task c k st idv).2.2 = k + 1 := by
  unfold TodoService.toggle_task
  rw [hget]
  rfl

/-- C2: after a successful `update_task` or `toggle_task` on a stored id
whose prior stored `updated_at` is not in the clock future, the returned item
carries `updated_at` refreshed to the current instant — hence at least the
prior value, and this regardless of whether any field changed — while its
`created_at` equals the prior stored `created_at`. -/
theorem C2_update_refreshes_timestamps (c : Clock) (k : Nat)
    (st : SQLiteTodoBackend) (idv : String) (title? : Option String)
    (completed? : Option Bool) (it : TodoItem)
    (hget : st.get_item idv = some it) (hle : it.updated_at ≤ c.read k) :
    (∃ it2, (TodoService.update_task c k st idv title? completed?).1 = some it2 ∧
      it2.updated_at = c.read k ∧ it.updated_at ≤ it2.updated_at ∧
      it2.created_at = it.created_at) ∧
    (∃ it2, (TodoService.toggle_task c k st idv).1 = some it2 ∧
      it2.updated_at = c.read k ∧ it.updated_at ≤ it2.updated_at ∧
      it2.created_at = it.created_at) := by
  constructor
  · cases title? <;> cases completed? <;>
      (unfold TodoService.update_task; rw [hget]; exact ⟨_, rfl, rfl, hle, rfl⟩)
  · exact ⟨_, toggle_task_fst c k st idv it hget, rfl, hle, rfl⟩

/-- C2 witness: refresh at a concrete clock and one-row state. -/
theorem C2_update_refreshes_timestamps_witness :
    (SQLiteTodoBackend.get_item
        ⟨[⟨"a", "t", 0, DateTime.isoformat 5, DateTime.isoformat 5⟩]⟩ "a" =
          some ⟨"a", "t", false, 5, 5⟩ ∧
      (⟨"a", "t", false, 5, 5⟩ : TodoItem).updated_at ≤
        Clock.read ⟨fun _ => 100⟩ 0) ∧
    ((∃ it2, (TodoService.update_task ⟨fun _ => 100⟩ 0
        ⟨[⟨"a", "t", 0, DateTime.isoformat 5, DateTime.isoformat 5⟩]⟩ "a"
        (some "x") none).1 = some it2 ∧
      it2.updated_at = Clock.read ⟨fun _ => 100⟩ 0 ∧
      (⟨"a", "t", false, 5, 5⟩ : TodoItem).updated_at ≤ it2.updated_at ∧
      it2.created_at = (⟨"a", "t", false, 5, 5⟩ : TodoItem).created_at) ∧
    (∃ it2, (TodoService.toggle_task ⟨fun _ => 100⟩ 0
        ⟨[⟨"a", "t", 0, DateTime.isoformat 5, DateTime.isoformat 5⟩]⟩ "a").1 =
          some it2 ∧
      it2.updated_at = Clock.read ⟨fun _ => 100⟩ 0 ∧
      (⟨"a", "t", false, 5, 5⟩ : TodoItem).updated_at ≤ it2.updated_at ∧
      it2.created_at = (⟨"a", "t", false, 5, 5⟩ : TodoItem).created_at)) :=
  ⟨⟨by decide, by decide⟩,
    C2_update_refreshes_timestamps ⟨fun _ => 100⟩ 0
      ⟨[⟨"a", "t", 0, DateTime.isoformat 5, DateTime.isoformat 5⟩]⟩ "a"
      (some "x") none ⟨"a", "t", false, 5, 5⟩ (by decide) (by decide)⟩

/-- C3: on an id stored nowhere, `get_task` returns absent, `update_task` and
`toggle_task` return absent leaving the state and the clock counter
untouched, and `delete_task` returns false; none of them produces a fault. -/
theorem C3_not_found_uniformity (c : Clock) (k : Nat) (rows : List Row)
    (idv : String) (title? : Option String) (completed? : Option Bool)
    (hid : ∀ r ∈ rows, r.id ≠ idv) :
    TodoService.get_task ⟨rows⟩ idv = none ∧
    TodoService.update_task c k ⟨rows⟩ idv title? completed? = (none, ⟨rows⟩, k) ∧
    TodoService.toggle_task c k ⟨rows⟩ idv = (none, ⟨rows⟩, k) ∧
    TodoService.delete_task ⟨rows⟩ idv = (false, ⟨rows⟩) := by
  have hget : SQLiteTodoBackend.get_item ⟨rows⟩ idv = none := by
    rw [get_item_eq]
    have hfind : rows.find? (fun r => r.id == idv) = none := by
      rw [List.find?_eq_none]
      intro r hr
      simp only [beq_iff_eq]
      exact hid r hr
    simp [hfind]
  refine ⟨hget, ?_, ?_, ?_⟩
  · unfold TodoService.update_task
    rw [hget]
  · unfold TodoService.toggle_task
    rw [hget]
  · unfold TodoService.delete_task SQLiteTodoBackend.delete_item
    have h1 : rows.countP (fun r => r.id == idv) = 0 := by
      rw [List.countP_eq_zero]
      intro r hr
      simp only [beq_iff_eq]
      exact hid r hr
    have h2 : rows.filter (fun r => !(r.id == idv)) = rows := by
      rw [List.filter_eq_self]
      intro r hr
      simp only [Bool.not_eq_true', beq_eq_false_iff_ne]
      exact hid r hr
    simp [h1, h2]

/-- C3 witness: the not-found behaviour at a concrete state and id. -/
theorem C3_not_found_uniformity_witness :
    (∀ r ∈ [(⟨"a", "t", 0, DateTime.isoformat 5, DateTime.isoformat 5⟩ : Row)],
        r.id ≠ "zz") ∧
    (TodoService.get_task
        ⟨[⟨"a", "t", 0, DateTime.isoformat 5, DateTime.isoformat 5⟩]⟩ "zz" = none ∧
      TodoService.update_task ⟨fun _ => 100⟩ 0
        ⟨[⟨"a", "t", 0, DateTime.isoformat 5, DateTime.isoformat 5⟩]⟩ "zz"
        (some "x") none =
        (none, ⟨[⟨"a", "t", 0, DateTime.isoformat 5, DateTime.isoformat 5⟩]⟩, 0) ∧
      TodoService.toggle_task ⟨fun _ => 100⟩ 0
        ⟨[⟨"a", "t", 0, DateTime.isoformat 5, DateTime.isoformat 5⟩]⟩ "zz" =
        (none, ⟨[⟨"a", "t", 0, DateTime.isoformat 5, DateTime.isoformat 5⟩]⟩, 0) ∧
      TodoService.delete_task
        ⟨[⟨"a", "t", 0, DateTime.isoformat 5, DateTime.isoformat 5⟩]⟩ "zz" =
        (false, ⟨[⟨"a", "t", 0, DateTime.isoformat 5, DateTime.isoformat 5⟩]⟩)) :=
  ⟨by decide,
    C3_not_found_uniformity ⟨fun _ => 100⟩ 0
      [⟨"a", "t", 0, DateTime.isoformat 5, DateTime.isoformat 5⟩] "zz"
      (some "x") none (by decide)⟩

/-- Closed form of the first component of a title-only `update_task` on a
present id. -/
theorem update_task_title_fst (c : Clock) (k : Nat) (st : SQLiteTodoBackend)
    (idv : String) (t : String) (it : TodoItem)
    (hget : st.get_item idv = some it) :
    (TodoService.update_task c k st idv (some t) none).1 =
      some ⟨it.id, t, it.completed, it.created_at, c.read k⟩ := by
  unfold TodoService.update_task
  rw [hget]
  rfl

/-- Closed form of the state after a title-only `update_task` on a present
id. -/
theorem update_task_title_state (c : Clock) (k : Nat) (st : SQLiteTodoBackend)
    (idv : String) (t : String) (it : TodoItem)
    (hget : st.get_item idv = some it) :
    (TodoService.update_task c k st idv (some t) none).2.1 =
      (SQLiteTodoBackend.update_item c k st
        ⟨it.id, t, it.completed, it.created_at, it.updated_at⟩).2.1 := by
  unfold TodoService.update_task
  rw [hget]

/-- Closed form of the first component of a completed-only `update_task` on a
present id. -/
theorem update_task_completed_fst (c : Clock) (k : Nat) (st : SQLiteTodoBackend)
    (idv : String) (b : Bool) (it : TodoItem)
    (hget : st.get_item idv = some it) :
    (TodoService.update_task c k st idv none (some b)).1 =
      some ⟨it.id, it.title, b, it.created_at, c.read k⟩ := by
  unfold TodoService.update_task
  rw [hget]
  rfl

/-- Closed form of the state after a completed-only `update_task` on a
present id. -/
theorem update_task_completed_state (c : Clock) (k : Nat)
    (st : SQLiteTodoBackend) (idv : String) (b : Bool) (it : TodoItem)
    (hget : st.get_item idv = some it) :
    (TodoService.update_task c k st idv none (some b)).2.1 =
      (SQLiteTodoBackend.update_item c k st
        ⟨it.id, it.title, b, it.created_at, it.updated_at⟩).2.1 := by
  unfold TodoService.update_task
  rw [hget]

/-- C6: partial update frame: a title-only `update_task` leaves the completed
flag — returned and stored — at its prior value, a completed-only
`update_task` leaves the title at its prior value, and the id column of every
row survives any update unchanged. -/
theorem C6_partial_update (c : Clock) (k : Nat) (st : SQLiteTodoBackend)
    (idv : String) (t : String) (b : Bool) (it : TodoItem)
    (hget : st.get_item idv = some it) :
    ((TodoService.update_task c k st idv (some t) none).1 =
        some ⟨it.id, t, it.completed, it.created_at, c.read k⟩ ∧
      ((TodoService.update_task c k st idv (some t) none).2.1.get_item idv).map
          TodoItem.completed = some it.completed ∧
      (TodoService.update_task c k st idv (some t) none).2.1.rows.map Row.id =
        st.rows.map Row.id) ∧
    ((TodoService.update_task c k st idv none (some b)).1 =
        some ⟨it.id, it.title, b, it.created_at, c.read k⟩ ∧
      ((TodoService.update_task c k st idv none (some b)).2.1.get_item idv).map
          TodoItem.title = some it.title ∧
      (TodoService.update_task c k st idv none (some b)).2.1.rows.map Row.id =
        st.rows.map Row.id) := by
  have hid := get_item_id hget
  refine ⟨⟨update_task_title_fst c k st idv t it hget, ?_, ?_⟩,
    ⟨update_task_completed_fst c k st idv b it hget, ?_, ?_⟩⟩
  · rw [update_task_title_state c k st idv t it hget]
    have h := get_item_update_item c k st ⟨it.id, t, it.completed, it.created_at, it.updated_at⟩
    have h2 : (⟨it.id, t, it.completed, it.created_at, it.updated_at⟩ : TodoItem).id = idv := hid
    rw [h2] at h
    rw [hid, h, hget]
    rfl
  · rw [update_task_title_state c k st idv t it hget]
    exact update_item_rows_id c k st _
  · rw [update_task_completed_state c k st idv b it hget]
    have h := get_item_update_item c k st ⟨it.id, it.title, b, it.created_at, it.updated_at⟩
    have h2 : (⟨it.id, it.title, b, it.created_at, it.updated_at⟩ : TodoItem).id = idv := hid
    rw [h2] at h
    rw [hid, h, hget]
    rfl
  · rw [update_task_completed_state c k st idv b it hget]
    exact update_item_rows_id c k st _

/-- C6 witness: the partial-update frame at a concrete state. -/
theorem C6_partial_update_witness :
    SQLiteTodoBackend.get_item
        ⟨[⟨"a", "t", 1, DateTime.isoformat 5, DateTime.isoformat 5⟩]⟩ "a" =
      some ⟨"a", "t", true, 5, 5⟩ ∧
    (((TodoService.update_task ⟨fun _ => 100⟩ 0
        ⟨[⟨"a", "t", 1, DateTime.isoformat 5, DateTime.isoformat 5⟩]⟩ "a"
        (some "x") none).1 = some ⟨"a", "x", true, 5, 100⟩ ∧
      ((TodoService.update_task ⟨fun _ => 100⟩ 0
        ⟨[⟨"a", "t", 1, DateTime.isoformat 5, DateTime.isoformat 5⟩]⟩ "a"
        (some "x") none).2.1.get_item "a").map TodoItem.completed = some true ∧
      (TodoService.update_task ⟨fun _ => 100⟩ 0
        ⟨[⟨"a", "t", 1, DateTime.isoformat 5, DateTime.isoformat 5⟩]⟩ "a"
        (some "x") none).2.1.rows.map Row.id =
        (⟨[⟨"a", "t", 1, DateTime.isoformat 5, DateTime.isoformat 5⟩]⟩ :
          SQLiteTodoBackend).rows.map Row.id) ∧
    ((TodoService.update_task ⟨fun _ => 100⟩ 0
        ⟨[⟨"a", "t", 1, DateTime.isoformat 5, DateTime.isoformat 5⟩]⟩ "a"
        none (some false)).1 = some ⟨"a", "t", false, 5, 100⟩ ∧
      ((TodoService.update_task ⟨fun _ => 100⟩ 0
        ⟨[⟨"a", "t", 1, DateTime.isoformat 5, DateTime.isoformat 5⟩]⟩ "a"
        none (some false)).2.1.get_item "a").map TodoItem.title = some "t" ∧
      (TodoService.update_task ⟨fun _ => 100⟩ 0
        ⟨[⟨"a", "t", 1, DateTime.isoformat 5, DateTime.isoformat 5⟩]⟩ "a"
        none (some false)).2.1.rows.map Row.id =
        (⟨[⟨"a", "t", 1, DateTime.isoformat 5, DateTime.isoformat 5⟩]⟩ :
          SQLiteTodoBackend).rows.map Row.id)) :=
  ⟨by decide,
    C6_partial_update ⟨fun _ => 100⟩ 0
      ⟨[⟨"a", "t", 1, DateTime.isoformat 5, DateTime.isoformat 5⟩]⟩ "a"
      "x" false ⟨"a", "t", true, 5, 5⟩ (by decide)⟩

/-- C7: toggling a stored id twice in succession returns the completed flag
of the returned item to the value it had before the first toggle. -/
theorem C7_toggle_twice (c : Clock) (k : Nat) (st : SQLiteTodoBackend)
    (idv : String) (it : TodoItem) (hget : st.get_item idv = some it) :
    ((TodoService.toggle_task c (TodoService.toggle_task c k st idv).2.2
        (TodoService.toggle_task c k st idv).2.1 idv).1).map TodoItem.completed =
      some it.completed := by
  have hid := get_item_id hget
  rw [toggle_task_counter c k st idv it hget,
    toggle_task_state c k st idv it hget]
  have h2 : ((SQLiteTodoBackend.update_item c k st
      ⟨it.id, it.title, !it.completed, it.created_at, it.updated_at⟩).2.1).get_item
        idv =
      some ⟨it.id, it.title, !it.completed, it.created_at,
        fromisoformat (DateTime.isoformat (c.read k))⟩ := by
    have h := get_item_update_item c k st
      ⟨it.id, it.title, !it.completed, it.created_at, it.updated_at⟩
    have h3 : (⟨it.id, it.title, !it.completed, it.created_at, it.updated_at⟩ :
        TodoItem).id = idv := hid
    rw [h3] at h
    rw [hid, h, hget]
    simp [hid]
  rw [toggle_task_fst c (k + 1) _ idv _ h2]
  simp

/-- C7 witness: the double toggle at a concrete state. -/
theorem C7_toggle_twice_witness :
    SQLiteTodoBackend.get_item
        ⟨[⟨"a", "t", 0, DateTime.isoformat 5, DateTime.isoformat 5⟩]⟩ "a" =
      some ⟨"a", "t", false, 5, 5⟩ ∧
    ((TodoService.toggle_task ⟨fun j => 100 + j⟩
        (TodoService.toggle_task ⟨fun j => 100 + j⟩ 0
          ⟨[⟨"a", "t", 0, DateTime.isoformat 5, DateTime.isoformat 5⟩]⟩ "a").2.2
        (TodoService.toggle_task ⟨fun j => 100 + j⟩ 0
          ⟨[⟨"a", "t", 0, DateTime.isoformat 5, DateTime.isoformat 5⟩]⟩ "a").2.1
        "a").1).map TodoItem.completed = some false :=
  ⟨by decide,
    C7_toggle_twice ⟨fun j => 100 + j⟩ 0
      ⟨[⟨"a", "t", 0, DateTime.isoformat 5, DateTime.isoformat 5⟩]⟩ "a"
      ⟨"a", "t", false, 5, 5⟩ (by decide)⟩

/-- C4 counterexample: the table-store `delete_item` maps a raised error
whose root cause is not an absent entity (`notFound = false`) to a normal
`False` result instead of surfacing it as a fault. -/
theorem C4_counterexample :
    AzureTableTodoBackend.delete_item (.err false) = .ok false := rfl

/-- C4 (amended): the file-store delete returns true iff a record with the id
existed (and was removed) and false otherwise, never raising for the
not-found case; the table-store delete returns true when the remote call
succeeds and false when it raises any error — errors whose root cause is not
"not found" are also mapped to a false result rather than surfaced. -/
theorem C4_delete_contract (st : SQLiteTodoBackend) (idv : String)
    (resp : AzureTableTodoBackend.DeleteResp) :
    ((SQLiteTodoBackend.delete_item st idv).1 = true ↔ ∃ r ∈ st.rows, r.id = idv) ∧
    (SQLiteTodoBackend.delete_item st idv).2.rows =
      st.rows.filter (fun r => !(r.id == idv)) ∧
    AzureTableTodoBackend.delete_item resp =
      .ok (decide (resp = AzureTableTodoBackend.DeleteResp.ok)) := by
  refine ⟨?_, rfl, ?_⟩
  · simp [SQLiteTodoBackend.delete_item, List.countP_pos_iff]
  · cases resp with
    | ok => rfl
    | err nf => simp [AzureTableTodoBackend.delete_item]

/-- C5: serialization round-trip: for every item whose datetime fields are
representable Python datetimes, `from_dict` applied to `to_dict` returns an
item equal to the original in all five fields, the timestamps traveling as
ISO strings and the completed flag as a boolean. -/
theorem C5_round_trip (it : TodoItem)
    (hc : DateTime.WF it.created_at) (hu : DateTime.WF it.updated_at) :
    TodoItem.from_dict it.to_dict = some it ∧
    it.to_dict.created_at = Value.vStr (DateTime.isoformat it.created_at) ∧
    it.to_dict.updated_at = Value.vStr (DateTime.isoformat it.updated_at) ∧
    it.to_dict.completed = Value.vBool it.completed := by
  refine ⟨?_, rfl, rfl, rfl⟩
  simp [TodoItem.to_dict, TodoItem.from_dict,
    fromisoformat_isoformat hc, fromisoformat_isoformat hu]

/-- C5 witness: the round trip at a concrete item. -/
theorem C5_round_trip_witness :
    (DateTime.WF 44 ∧ DateTime.WF 55) ∧
    TodoItem.from_dict (TodoItem.to_dict ⟨"a", "milk", true, 44, 55⟩) =
      some ⟨"a", "milk", true, 44, 55⟩ :=
  ⟨⟨by decide, by decide⟩,
    (C5_round_trip ⟨"a", "milk", true, 44, 55⟩ (by decide) (by decide)).1⟩

/-- C9: construction of the table-store backend raises a configuration error
iff the effective workload-identity mode is off and no connection string is
present, or the effective mode is on and neither an account URL nor an
account name is present; in every other configuration (with the Azure SDK
importable) it succeeds without raising. -/
theorem C9_init_validation (cs : Option String) (tn : String)
    (name url : Option String) (wi : Bool)
    (env : AzureTableTodoBackend.AzureEnv) :
    (∃ e, AzureTableTodoBackend.init true cs tn name url wi env =
        .error e) ↔
      ((wi || (AzureTableTodoBackend.pyLower
          (env.use_workload_identity.getD "false") == "true")) = false ∧
        AzureTableTodoBackend.truthy
          (AzureTableTodoBackend.pyOr cs env.connection_string) = false) ∨
      ((wi || (AzureTableTodoBackend.pyLower
          (env.use_workload_identity.getD "false") == "true")) = true ∧
        AzureTableTodoBackend.truthy
          (AzureTableTodoBackend.pyOr url env.account_url) = false ∧
        AzureTableTodoBackend.truthy
          (AzureTableTodoBackend.pyOr name env.account_name) = false) := by
  unfold AzureTableTodoBackend.init
  simp only [Bool.not_true, Bool.false_eq_true, if_false]
  cases hwi : wi || (AzureTableTodoBackend.pyLower
      (env.use_workload_identity.getD "false") == "true") with
  | false =>
    cases hcs : AzureTableTodoBackend.truthy
        (AzureTableTodoBackend.pyOr cs env.connection_string) with
    | false => simp [hwi, hcs]
    | true => simp [hwi, hcs]
  | true =>
    cases hurl : AzureTableTodoBackend.truthy
        (AzureTableTodoBackend.pyOr url env.account_url) with
    | false =>
      cases hname : AzureTableTodoBackend.truthy
          (AzureTableTodoBackend.pyOr name env.account_name) with
      | false => simp [hwi, hurl, hname]
      | true => simp [hwi, hurl, hname]
    | true => simp [hwi, hurl]

/-- C10: adding an item whose id is already stored raises — the file store
with an IntegrityError from the primary-key INSERT, the table store with a
ResourceExistsError from `create_entity` — and the stored table is returned
unchanged; neither backend overwrites on add. -/
theorem C10_add_duplicate_id_faults (uuid : String) (st : SQLiteTodoBackend)
    (tbl : AzureTable) (item : TodoItem) (hid : ¬ item.id = "")
    (hsq : ∃ r ∈ st.rows, r.id = item.id)
    (haz : ∃ e ∈ tbl.entities, e.partitionKey = "todos" ∧ e.rowKey = item.id) :
    SQLiteTodoBackend.add_item uuid st item =
      (.error SQLiteTodoBackend.SqlError.integrityError, st) ∧
    AzureTableTodoBackend.add_item uuid tbl item =
      (.error AzureTableTodoBackend.AzError.resourceExists, tbl) := by
  constructor
  · unfold SQLiteTodoBackend.add_item
    rw [if_neg hid]
    have hany : st.rows.any (fun r => r.id == item.id) = true := by
      rw [List.any_eq_true]
      obtain ⟨r, hr, he⟩ := hsq
      exact ⟨r, hr, by simp [he]⟩
    rw [if_pos hany]
  · unfold AzureTableTodoBackend.add_item
    rw [if_neg hid]
    have hany : tbl.entities.any
        (fun e => e.partitionKey == "todos" && e.rowKey == item.id) = true := by
      rw [List.any_eq_true]
      obtain ⟨e, he, hp, hr⟩ := haz
      exact ⟨e, he, by simp [hp, hr]⟩
    rw [if_pos hany]

/-- C10 witness: the duplicate-id fault at concrete stores. -/
theorem C10_add_duplicate_id_faults_witness :
    (¬ (⟨"a", "t2", false, 7, 7⟩ : TodoItem).id = "" ∧
      (∃ r ∈ [(⟨"a", "t", 0, DateTime.isoformat 5, DateTime.isoformat 5⟩ : Row)],
        r.id = (⟨"a", "t2", false, 7, 7⟩ : TodoItem).id) ∧
      (∃ e ∈ [(⟨"todos", "a", "t", false, DateTime.isoformat 5,
          DateTime.isoformat 5⟩ : AzEntity)],
        e.partitionKey = "todos" ∧
          e.rowKey = (⟨"a", "t2", false, 7, 7⟩ : TodoItem).id)) ∧
    (SQLiteTodoBackend.add_item "u9"
        ⟨[⟨"a", "t", 0, DateTime.isoformat 5, DateTime.isoformat 5⟩]⟩
        ⟨"a", "t2", false, 7, 7⟩ =
      (.error SQLiteTodoBackend.SqlError.integrityError,
        ⟨[⟨"a", "t", 0, DateTime.isoformat 5, DateTime.isoformat 5⟩]⟩) ∧
    AzureTableTodoBackend.add_item "u9"
        ⟨[⟨"todos", "a", "t", false, DateTime.isoformat 5,
          DateTime.isoformat 5⟩]⟩ ⟨"a", "t2", false, 7, 7⟩ =
      (.error AzureTableTodoBackend.AzError.resourceExists,
        ⟨[⟨"todos", "a", "t", false, DateTime.isoformat 5,
          DateTime.isoformat 5⟩]⟩)) :=
  ⟨⟨by decide, by decide, by decide⟩,
    C10_add_duplicate_id_faults "u9"
      ⟨[⟨"a", "t", 0, DateTime.isoformat 5, DateTime.isoformat 5⟩]⟩
      ⟨[⟨"todos", "a", "t", false, DateTime.isoformat 5, DateTime.isoformat 5⟩]⟩
      ⟨"a", "t2", false, 7, 7⟩ (by decide) (by decide) (by decide)⟩

/-- Transitivity of the descending created_at row comparator. -/
theorem rowCmp_trans (a b c : Row) :
    textLe b.created_at a.created_at = true →
    textLe c.created_at b.created_at = true →
    textLe c.created_at a.created_at = true := by
  unfold textLe
  simp only [Bool.not_eq_true']
  intro hab hbc
  rw [Bool.eq_false_iff]
  intro hac
  rcases strLtB_cotrans _ _ b.created_at.data hac with h | h
  · rw [hab] at h
    exact Bool.false_ne_true h
  · rw [hbc] at h
    exact Bool.false_ne_true h

/-- Totality of the descending created_at row comparator. -/
theorem rowCmp_total (a b : Row) :
    (textLe b.created_at a.created_at || textLe a.created_at b.created_at)
      = true := by
  unfold textLe
  cases hab : strLtB a.created_at.data b.created_at.data with
  | false => simp
  | true => simp [strLtB_asymm _ _ hab]

/-- Reconstruction of every fetched row succeeds, so the filterMap in
`get_all_items` is a map. -/
theorem filterMap_from_dict (l : List Row) :
    l.filterMap (fun r => TodoItem.from_dict (SQLiteTodoBackend.rowDict r)) =
      l.map (fun r => ⟨r.id, r.title, r.completed != 0,
        fromisoformat r.created_at, fromisoformat r.updated_at⟩) := by
  have hfun : (fun r => TodoItem.from_dict (SQLiteTodoBackend.rowDict r)) =
      (fun r : Row => some (⟨r.id, r.title, r.completed != 0,
        fromisoformat r.created_at, fromisoformat r.updated_at⟩ : TodoItem)) := by
    funext r
    exact from_dict_rowDict r
  rw [hfun]
  exact congrFun (List.filterMap_eq_map _) l

/-- C8: on a state whose created_at column holds rendered representable
instants, `get_all_items` returns every stored record exactly once, ordered
by `created_at` descending (most recent first). -/
theorem C8_get_all_ordering (st : SQLiteTodoBackend)
    (hwf : ∀ r ∈ st.rows, ∃ t, DateTime.WF t ∧
      r.created_at = DateTime.isoformat t) :
    (st.get_all_items).Perm
      (st.rows.filterMap
        (fun r => TodoItem.from_dict (SQLiteTodoBackend.rowDict r))) ∧
    List.Pairwise (fun a b : TodoItem => b.created_at ≤ a.created_at)
      st.get_all_items := by
  unfold SQLiteTodoBackend.get_all_items
  constructor
  · exact List.Perm.filterMap _
      (List.mergeSort_perm st.rows (fun r1 r2 => textLe r2.created_at r1.created_at))
  · rw [filterMap_from_dict, List.pairwise_map]
    have hsorted := @List.sorted_mergeSort Row
      (fun r1 r2 => textLe r2.created_at r1.created_at)
      (fun a b c => rowCmp_trans a b c)
      (fun a b => rowCmp_total a b) st.rows
    have hmem : ∀ r ∈ st.rows.mergeSort
        (fun r1 r2 => textLe r2.created_at r1.created_at), r ∈ st.rows :=
      fun r hr => (List.mergeSort_perm st.rows _).mem_iff.mp hr
    refine hsorted.imp_of_mem ?_
    intro a b ha hb hle
    obtain ⟨ta, hta, hca⟩ := hwf a (hmem a ha)
    obtain ⟨tb, htb, hcb⟩ := hwf b (hmem b hb)
    simp only [hca, hcb] at hle ⊢
    rw [fromisoformat_isoformat hta, fromisoformat_isoformat htb]
    exact (textLe_isoformat htb hta).mp hle

/-- C8 witness: three concrete rows come back sorted most recent first. -/
theorem C8_get_all_ordering_witness :
    (∀ r ∈ [(⟨"a", "t1", 0, DateTime.isoformat 5, DateTime.isoformat 5⟩ : Row),
        ⟨"b", "t2", 1, DateTime.isoformat 9, DateTime.isoformat 9⟩,
        ⟨"d", "t3", 0, DateTime.isoformat 7, DateTime.isoformat 7⟩],
      ∃ t, DateTime.WF t ∧ r.created_at = DateTime.isoformat t) ∧
    ((SQLiteTodoBackend.get_all_items
        ⟨[⟨"a", "t1", 0, DateTime.isoformat 5, DateTime.isoformat 5⟩,
          ⟨"b", "t2", 1, DateTime.isoformat 9, DateTime.isoformat 9⟩,
          ⟨"d", "t3", 0, DateTime.isoformat 7, DateTime.isoformat 7⟩]⟩).Perm
      ([(⟨"a", "t1", 0, DateTime.isoformat 5, DateTime.isoformat 5⟩ : Row),
        ⟨"b", "t2", 1, DateTime.isoformat 9, DateTime.isoformat 9⟩,
        ⟨"d", "t3", 0, DateTime.isoformat 7, DateTime.isoformat 7⟩].filterMap
        (fun r => TodoItem.from_dict (SQLiteTodoBackend.rowDict r))) ∧
    List.Pairwise (fun a b : TodoItem => b.created_at ≤ a.created_at)
      (SQLiteTodoBackend.get_all_items
        ⟨[⟨"a", "t1", 0, DateTime.isoformat 5, DateTime.isoformat 5⟩,
          ⟨"b", "t2", 1, DateTime.isoformat 9, DateTime.isoformat 9⟩,
          ⟨"d", "t3", 0, DateTime.isoformat 7, DateTime.isoformat 7⟩]⟩)) := by
  have hwf : ∀ r ∈ [(⟨"a", "t1", 0, DateTime.isoformat 5,
        DateTime.isoformat 5⟩ : Row),
      ⟨"b", "t2", 1, DateTime.isoformat 9, DateTime.isoformat 9⟩,
      ⟨"d", "t3", 0, DateTime.isoformat 7, DateTime.isoformat 7⟩],
      ∃ t, DateTime.WF t ∧ r.created_at = DateTime.isoformat t := by
    intro r hr
    simp only [List.mem_cons, List.not_mem_nil, or_false] at hr
    rcases hr with h | h | h <;> subst h
    · exact ⟨5, by decide, rfl⟩
    · exact ⟨9, by decide, rfl⟩
    · exact ⟨7, by decide, rfl⟩
  exact ⟨hwf, C8_get_all_ordering
    ⟨[⟨"a", "t1", 0, DateTime.isoformat 5, DateTime.isoformat 5⟩,
      ⟨"b", "t2", 1, DateTime.isoformat 9, DateTime.isoformat 9⟩,
      ⟨"d", "t3", 0, DateTime.isoformat 7, DateTime.isoformat 7⟩]⟩ hwf⟩

end Todolist
